import Mathlib

/-!
Verification development for the connection lifecycle core of openhiven.py.

The definitions below are a shallow embedding of:
  * `HivenClient.connect`  (openhivenpy/client/hivenclient.py)
  * `Connection.connect`, `Connection._reset_status`, `Connection.close`
    (openhivenpy/gateway/__init__.py)
  * `HTTPClient.raw_request` / `request` / `post` / `patch` / `delete`
    (openhivenpy/gateway/http.py)

Asynchronous sub-calls (the websocket session, the keep-alive loop and the
message broker) are abstracted by an outcome alphabet describing how each
awaited block ends; the control flow of the supervisor itself is translated
statement by statement from the Python source.
-/

set_option linter.unusedVariables false
set_option linter.unreachableTactic false
set_option linter.unusedTactic false
set_option linter.unnecessarySeqFocus false
set_option linter.unnecessarySimpa false

namespace OpenHivenPy

/-- The values the source ever assigns to `Connection._connection_status`
(a Python string; the four values below are exactly the literals appearing
in the source, "OPEN" appearing only in the spec). -/
inductive ConnectionStatus
  | CLOSED
  | OPENING
  | OPEN
  | CLOSING
  deriving DecidableEq

namespace HivenClient

/-- One observable step of `HivenClient.connect`
(openhivenpy/client/hivenclient.py, lines 200-224), up to and including the
hand-off `await self.connection.connect(restart=restart)`. -/
inductive Step
  | storeToken                     -- `self.storage['token'] = self._token`
  | raiseInvalidTokenEmpty         -- `raise InvalidTokenError("Empty Token was passed!")`
  | raiseInvalidTokenWrongLength   -- `raise InvalidTokenError("Invalid Token was passed")`
  | connectionConnect              -- `await self.connection.connect(restart=restart)`
  deriving DecidableEq

/-- How the token-validation prefix of `HivenClient.connect` ends. -/
inductive CheckResult
  | invalidTokenError   -- an `InvalidTokenError` propagates to the caller
  | networkAttempt      -- control reached `self.connection.connect` (first transport activity)
  deriving DecidableEq

/-- The token checks of `HivenClient.connect`
(openhivenpy/client/hivenclient.py lines 200-224).  `token` is the effective
token (`self._token` after the argument / environment fallback);
`user_token_len` and `bot_token_len` are the configured token lengths
(`os.getenv("USER_TOKEN_LEN")` / `os.getenv("BOT_TOKEN_LEN")`). -/
def connect (token : Option String) (user_token_len bot_token_len : Nat) :
    CheckResult × List Step :=
  match token with
  | none =>
      (CheckResult.invalidTokenError, [Step.storeToken, Step.raiseInvalidTokenEmpty])
  | some t =>
      if t = ("") then
        (CheckResult.invalidTokenError, [Step.storeToken, Step.raiseInvalidTokenEmpty])
      else if t.length ≠ user_token_len ∧ t.length ≠ bot_token_len then
        (CheckResult.invalidTokenError, [Step.storeToken, Step.raiseInvalidTokenWrongLength])
      else
        (CheckResult.networkAttempt, [Step.storeToken, Step.connectionConnect])

end HivenClient

/-- C1: a credential that is None/empty or whose length is neither the
configured user-token length nor the bot-token length makes `connect()` raise
`InvalidTokenError` before the connection (and with it any HTTP or stream
transport) is opened; a token passing the shape checks reaches the network
attempt without any such error. -/
theorem C1_token_shape_check (u b : Nat) :
    ((HivenClient.connect none u b).1 = HivenClient.CheckResult.invalidTokenError
      ∧ HivenClient.Step.connectionConnect ∉ (HivenClient.connect none u b).2)
    ∧ (∀ t : String, (t = ("") ∨ (t.length ≠ u ∧ t.length ≠ b)) →
        (HivenClient.connect (some t) u b).1 = HivenClient.CheckResult.invalidTokenError
        ∧ HivenClient.Step.connectionConnect ∉ (HivenClient.connect (some t) u b).2)
    ∧ (∀ t : String, t ≠ ("") → (t.length = u ∨ t.length = b) →
        (HivenClient.connect (some t) u b).1 = HivenClient.CheckResult.networkAttempt
        ∧ HivenClient.Step.raiseInvalidTokenEmpty ∉ (HivenClient.connect (some t) u b).2
        ∧ HivenClient.Step.raiseInvalidTokenWrongLength ∉
            (HivenClient.connect (some t) u b).2) := by
  refine ⟨⟨rfl, by simp [HivenClient.connect]⟩, ?_, ?_⟩
  · intro t ht
    rcases ht with h | h
    · subst h
      simp [HivenClient.connect]
    · by_cases he : t = ("")
      · subst he
        simp [HivenClient.connect]
      · simp [HivenClient.connect, he, h]
  · intro t he hl
    have h : ¬(t.length ≠ u ∧ t.length ≠ b) := by tauto
    simp [HivenClient.connect, he, h]

/-- Witness for C1 at concrete inputs: the empty token is rejected before any
transport is opened, and a length-1 token with configured lengths (1, 2)
reaches the network attempt. -/
theorem C1_token_shape_check_witness :
    ((HivenClient.connect (some ("")) 1 2).1 = HivenClient.CheckResult.invalidTokenError
      ∧ HivenClient.Step.connectionConnect ∉ (HivenClient.connect (some ("")) 1 2).2)
    ∧ (HivenClient.connect (some ("a")) 1 2).1 = HivenClient.CheckResult.networkAttempt :=
  ⟨(C1_token_shape_check 1 2).2.1 ("") (Or.inl rfl),
    ((C1_token_shape_check 1 2).2.2 ("a") (by decide) (Or.inl (by decide))).1⟩

namespace HTTPClient

/-- How the awaited request block inside `HTTPClient.raw_request`
(openhivenpy/gateway/http.py lines 102-161) ends.  `respond status hasErrorField`:
the server answered with the given HTTP status and the decoded JSON body
has (or lacks) a truthy `error` field.  `timeoutErr` is `asyncio.TimeoutError`;
`internalExc` is any other exception inside the request block (including a
JSON decode failure of the body); `cancelled` is `asyncio.CancelledError`
of the wrapping task. -/
inductive ServerBehavior
  | respond (status : Nat) (hasErrorField : Bool)
  | timeoutErr
  | internalExc
  | cancelled
  deriving DecidableEq

/-- What a `raw_request` call does for its caller. -/
inductive RawResult
  | resp (status : Nat)   -- returned the `ClientResponse` object
  | noneResult            -- returned `None`
  | httpError             -- raised `errs.HTTPError`
  deriving DecidableEq

/-- `HTTPClient.raw_request` (openhivenpy/gateway/http.py lines 81-161):
if `self.http_ready` is false the call logs and returns `None`; a 204
response sets the error flag and, not being 200/202, yields `None`; a
200/202 response without an `error` field returns the response; every other
server response yields `None`; a timeout or an internal exception raises
`HTTPError`; a cancelled task returns `None`. -/
def raw_request (http_ready : Bool) (server : ServerBehavior) : RawResult :=
  if http_ready then
    match server with
    | ServerBehavior.respond status hasErrorField =>
        if status = 204 then RawResult.noneResult
        else if (status = 200 ∨ status = 202) ∧ hasErrorField = false then
          RawResult.resp status
        else RawResult.noneResult
    | ServerBehavior.timeoutErr => RawResult.httpError
    | ServerBehavior.internalExc => RawResult.httpError
    | ServerBehavior.cancelled => RawResult.noneResult
  else RawResult.noneResult

/-- What a `request` call does for its caller. -/
inductive RequestResult
  | json (status : Nat)   -- returned the decoded JSON body of the response
  | noneResult            -- returned `None`
  | httpError             -- raised `errs.HTTPError`
  deriving DecidableEq

/-- `HTTPClient.request` (openhivenpy/gateway/http.py lines 163-186):
delegates to `raw_request` and decodes the body when the response is not
`None`, else returns `None`. -/
def request (http_ready : Bool) (server : ServerBehavior) : RequestResult :=
  match raw_request http_ready server with
  | RawResult.resp status => RequestResult.json status
  | RawResult.noneResult => RequestResult.noneResult
  | RawResult.httpError => RequestResult.httpError

/-- `HTTPClient.post` (openhivenpy/gateway/http.py lines 188-207): delegates
to `raw_request` with method "post". -/
def post (http_ready : Bool) (server : ServerBehavior) : RawResult :=
  raw_request http_ready server

/-- `HTTPClient.delete` (openhivenpy/gateway/http.py lines 209-229): delegates
to `raw_request` with method "DELETE". -/
def delete (http_ready : Bool) (server : ServerBehavior) : RawResult :=
  raw_request http_ready server

/-- `HTTPClient.patch` (openhivenpy/gateway/http.py lines 255-275): delegates
to `raw_request` with method "PATCH". -/
def patch (http_ready : Bool) (server : ServerBehavior) : RawResult :=
  raw_request http_ready server

end HTTPClient

/-- C9 counterexample: with the transport not ready and a healthy server
answer available, `request` returns `None` to the caller instead of either
returning decoded JSON or raising `HTTPError`; `post`/`patch`/`delete`
likewise return `None`, and a 500 error response is also swallowed as
`None` rather than raised. -/
theorem C9_counterexample_none_swallowed :
    HTTPClient.request false (HTTPClient.ServerBehavior.respond 200 false)
        = HTTPClient.RequestResult.noneResult
    ∧ HTTPClient.post false (HTTPClient.ServerBehavior.respond 200 false)
        = HTTPClient.RawResult.noneResult
    ∧ HTTPClient.request true (HTTPClient.ServerBehavior.respond 500 true)
        = HTTPClient.RequestResult.noneResult
    ∧ HTTPClient.patch true (HTTPClient.ServerBehavior.respond 500 true)
        = HTTPClient.RawResult.noneResult
    ∧ HTTPClient.delete true (HTTPClient.ServerBehavior.respond 500 true)
        = HTTPClient.RawResult.noneResult := by
  decide

/-- Full case behaviour of `HTTPClient.raw_request`, which `post`, `patch`
and `delete` return unchanged and `request` decodes. -/
theorem raw_request_spec (http_ready : Bool) (server : HTTPClient.ServerBehavior) :
    (HTTPClient.raw_request http_ready server = HTTPClient.RawResult.httpError
      ↔ (http_ready = true
          ∧ (server = HTTPClient.ServerBehavior.timeoutErr
              ∨ server = HTTPClient.ServerBehavior.internalExc)))
    ∧ (http_ready = false →
        HTTPClient.raw_request http_ready server = HTTPClient.RawResult.noneResult)
    ∧ (server = HTTPClient.ServerBehavior.cancelled →
        HTTPClient.raw_request http_ready server = HTTPClient.RawResult.noneResult)
    ∧ (∀ s hasErr, server = HTTPClient.ServerBehavior.respond s hasErr →
        ((hasErr = true ∨ s = 204 ∨ (s ≠ 200 ∧ s ≠ 202)) →
          HTTPClient.raw_request http_ready server = HTTPClient.RawResult.noneResult)
        ∧ (hasErr = false → (s = 200 ∨ s = 202) → http_ready = true →
          HTTPClient.raw_request http_ready server = HTTPClient.RawResult.resp s)) := by
  refine ⟨?_, ?_, ?_, ?_⟩
  · cases http_ready <;> cases server <;>
      simp only [HTTPClient.raw_request] <;>
      first
        | (split_ifs <;> simp_all)
        | simp
  · intro h
    subst h
    simp [HTTPClient.raw_request]
  · intro h
    subst h
    cases http_ready <;> simp [HTTPClient.raw_request]
  · intro s hasErr hs
    subst hs
    constructor
    · intro hnone
      cases http_ready with
      | false => simp [HTTPClient.raw_request]
      | true =>
          rcases hnone with h | h | h
          · subst h
            simp only [HTTPClient.raw_request, if_true]
            split_ifs <;> simp_all
          · subst h
            simp [HTTPClient.raw_request]
          · simp only [HTTPClient.raw_request, if_true]
            have h204 : ¬s = 204 ∨ s = 204 := by tauto
            split_ifs with h1 h2 <;> simp_all
    · intro herr h200 hready
      subst herr
      subst hready
      have h204 : ¬s = 204 := by rcases h200 with h | h <;> omega
      simp [HTTPClient.raw_request, h204, h200]

/-- C9 amended: every `request`/`post`/`patch`/`delete` call raises
`HTTPError` exactly for a timeout or an internal exception while the
transport is ready; a not-ready transport and a cancelled task always yield
`None` (never an error); an error-flagged response, a 204, and any other
non-200/202 response are swallowed as `None`; only a 200/202 response
without error field is returned — decoded by `request`, as the raw response
by `post`/`patch`/`delete`. -/
theorem C9_http_result_characterisation (http_ready : Bool)
    (server : HTTPClient.ServerBehavior) :
    ((HTTPClient.request http_ready server = HTTPClient.RequestResult.httpError
        ↔ (http_ready = true
            ∧ (server = HTTPClient.ServerBehavior.timeoutErr
                ∨ server = HTTPClient.ServerBehavior.internalExc)))
      ∧ (HTTPClient.post http_ready server = HTTPClient.RawResult.httpError
        ↔ (http_ready = true
            ∧ (server = HTTPClient.ServerBehavior.timeoutErr
                ∨ server = HTTPClient.ServerBehavior.internalExc)))
      ∧ (HTTPClient.patch http_ready server = HTTPClient.RawResult.httpError
        ↔ (http_ready = true
            ∧ (server = HTTPClient.ServerBehavior.timeoutErr
                ∨ server = HTTPClient.ServerBehavior.internalExc)))
      ∧ (HTTPClient.delete http_ready server = HTTPClient.RawResult.httpError
        ↔ (http_ready = true
            ∧ (server = HTTPClient.ServerBehavior.timeoutErr
                ∨ server = HTTPClient.ServerBehavior.internalExc))))
    ∧ (http_ready = false →
        HTTPClient.request http_ready server = HTTPClient.RequestResult.noneResult
        ∧ HTTPClient.post http_ready server = HTTPClient.RawResult.noneResult
        ∧ HTTPClient.patch http_ready server = HTTPClient.RawResult.noneResult
        ∧ HTTPClient.delete http_ready server = HTTPClient.RawResult.noneResult)
    ∧ (server = HTTPClient.ServerBehavior.cancelled →
        HTTPClient.request http_ready server = HTTPClient.RequestResult.noneResult
        ∧ HTTPClient.post http_ready server = HTTPClient.RawResult.noneResult
        ∧ HTTPClient.patch http_ready server = HTTPClient.RawResult.noneResult
        ∧ HTTPClient.delete http_ready server = HTTPClient.RawResult.noneResult)
    ∧ (∀ s hasErr, server = HTTPClient.ServerBehavior.respond s hasErr →
        ((hasErr = true ∨ s = 204 ∨ (s ≠ 200 ∧ s ≠ 202)) →
          HTTPClient.request http_ready server = HTTPClient.RequestResult.noneResult
          ∧ HTTPClient.post http_ready server = HTTPClient.RawResult.noneResult
          ∧ HTTPClient.patch http_ready server = HTTPClient.RawResult.noneResult
          ∧ HTTPClient.delete http_ready server = HTTPClient.RawResult.noneResult)
        ∧ (hasErr = false → (s = 200 ∨ s = 202) → http_ready = true →
          HTTPClient.request http_ready server = HTTPClient.RequestResult.json s
          ∧ HTTPClient.post http_ready server = HTTPClient.RawResult.resp s
          ∧ HTTPClient.patch http_ready server = HTTPClient.RawResult.resp s
          ∧ HTTPClient.delete http_ready server = HTTPClient.RawResult.resp s)) := by
  obtain ⟨herr, hnr, hcan, hresp⟩ := raw_request_spec http_ready server
  have hreq : ∀ r, HTTPClient.raw_request http_ready server = r →
      HTTPClient.request http_ready server
        = (match r with
            | HTTPClient.RawResult.resp s => HTTPClient.RequestResult.json s
            | HTTPClient.RawResult.noneResult => HTTPClient.RequestResult.noneResult
            | HTTPClient.RawResult.httpError => HTTPClient.RequestResult.httpError) := by
    intro r hr
    simp [HTTPClient.request, hr]
  refine ⟨⟨?_, herr, herr, herr⟩, ?_, ?_, ?_⟩
  · constructor
    · intro h
      apply herr.mp
      cases hr : HTTPClient.raw_request http_ready server <;>
        rw [hreq _ hr] at h <;> simp_all
    · intro h
      rw [hreq _ (herr.mpr h)]
  · intro h
    exact ⟨hreq _ (hnr h), hnr h, hnr h, hnr h⟩
  · intro h
    exact ⟨hreq _ (hcan h), hcan h, hcan h, hcan h⟩
  · intro s hasErr hs
    obtain ⟨hn, hok⟩ := hresp s hasErr hs
    constructor
    · intro hcond
      exact ⟨hreq _ (hn hcond), hn hcond, hn hcond, hn hcond⟩
    · intro h1 h2 h3
      exact ⟨hreq _ (hok h1 h2 h3), hok h1 h2 h3, hok h1 h2 h3, hok h1 h2 h3⟩

/-- Witness for C9 amended at concrete inputs. -/
theorem C9_http_result_characterisation_witness :
    (HTTPClient.request true HTTPClient.ServerBehavior.timeoutErr
        = HTTPClient.RequestResult.httpError)
    ∧ (HTTPClient.post true HTTPClient.ServerBehavior.internalExc
        = HTTPClient.RawResult.httpError)
    ∧ (HTTPClient.request false HTTPClient.ServerBehavior.internalExc
        = HTTPClient.RequestResult.noneResult)
    ∧ (HTTPClient.delete true HTTPClient.ServerBehavior.cancelled
        = HTTPClient.RawResult.noneResult)
    ∧ (HTTPClient.request true (HTTPClient.ServerBehavior.respond 404 true)
        = HTTPClient.RequestResult.noneResult)
    ∧ (HTTPClient.patch true (HTTPClient.ServerBehavior.respond 204 false)
        = HTTPClient.RawResult.noneResult)
    ∧ (HTTPClient.request true (HTTPClient.ServerBehavior.respond 200 false)
        = HTTPClient.RequestResult.json 200)
    ∧ (HTTPClient.post true (HTTPClient.ServerBehavior.respond 202 false)
        = HTTPClient.RawResult.resp 202) :=
  ⟨(C9_http_result_characterisation true
      HTTPClient.ServerBehavior.timeoutErr).1.1.mpr ⟨rfl, Or.inl rfl⟩,
    (C9_http_result_characterisation true
      HTTPClient.ServerBehavior.internalExc).1.2.1.mpr ⟨rfl, Or.inr rfl⟩,
    ((C9_http_result_characterisation false
      HTTPClient.ServerBehavior.internalExc).2.1 rfl).1,
    ((C9_http_result_characterisation true
      HTTPClient.ServerBehavior.cancelled).2.2.1 rfl).2.2.2,
    (((C9_http_result_characterisation true
      (HTTPClient.ServerBehavior.respond 404 true)).2.2.2 404 true rfl).1
        (Or.inl rfl)).1,
    (((C9_http_result_characterisation true
      (HTTPClient.ServerBehavior.respond 204 false)).2.2.2 204 false rfl).1
        (Or.inr (Or.inl rfl))).2.2.1,
    (((C9_http_result_characterisation true
      (HTTPClient.ServerBehavior.respond 200 false)).2.2.2 200 false rfl).2
        rfl (Or.inl rfl) rfl).1,
    (((C9_http_result_characterisation true
      (HTTPClient.ServerBehavior.respond 202 false)).2.2.2 202 false rfl).2
        rfl (Or.inr rfl) rfl).2.1⟩

namespace Connection

/-- How one pass through the body of the `while self.connection_status ==
"OPENING"` loop of `Connection.connect` (openhivenpy/gateway/__init__.py
lines 174-233) ends.  The websocket, keep-alive and message-broker
coroutines are not in scope here; the outcome records which of the except
clauses (lines 188-230) the awaited block lands in, or that `close()` ran
concurrently, or that the gather is still suspended (no outcome left). -/
inductive Outcome
  | timeoutHit          -- `asyncio.TimeoutError`: the wait_for limit elapsed
  | restartRequest      -- `RestartSessionError` from the websocket receive process
  | cleanRemoteClose    -- `WebSocketClosedError`: the remote closed the socket cleanly
  | closeCalled         -- `close()` ran and the gather then ended with `WebSocketClosedError`: the status stays CLOSING through the condition check, so the loop exits
  | closeThenTimeout    -- `close()` ran while `asyncio.wait_for` (line 180) was suspended and the wait then timed out: the timeout handler falls through to line 233, which resets the status from CLOSING back to OPENING and the loop re-enters (close() raced by any retryable ending behaves this way)
  | keyboardInterrupt   -- `KeyboardInterrupt` reaches the loop and is re-raised
  | genericException    -- any other `Exception` / `WebSocketFailedError` / `KeepAliveError`
  deriving DecidableEq

/-- One primitive effect of the supervisor, in execution order.  `setStatus`
is an assignment to `self._connection_status` made inside `connect`,
`_reset_status` or the `finally` block; `closeSetStatus` is the assignment
made by `close()` (line 307). -/
inductive Action
  | setStatus (s : ConnectionStatus)
  | closeSetStatus (s : ConnectionStatus)
  | httpConnect (ok : Bool)             -- `await self.http.connect()` (line 172)
  | waitForWs (limit : Nat) (ok : Bool) -- `await asyncio.wait_for(coro, 30)` (line 180)
  | assignWs (id : Nat)                 -- `self._ws = ...`: a fresh session handle
  | sendAuth                            -- `await self.ws.send_auth()` (line 181)
  | gatherStart                         -- `asyncio.gather(listening_loop, keep_alive.run, message_broker.run)` (lines 184-186)
  | resetWsFlags                        -- `self.ws._open = False; self.ws._ready = False; self.ws._startup_time = None` (lines 277-280)
  | httpClose                           -- `await self.http.close()` (line 249)
  | keepAliveStop                       -- `await self.keep_alive.stop()` plus the wait-until-inactive loop (lines 251-255)
  | brokerCloseLoop                     -- `await self.ws.message_broker.close_loop()` (line 259)
  | waitWsFinished                      -- `await self._wait_until_ws_finished()` (line 264)
  | delWs                               -- `del self._ws` (line 265)
  | setDefaults                         -- `self._set_default_properties()` (line 267; assigns CLOSED among the defaults)
  | socketClose                         -- `await self.ws.socket.close()` (line 317, performed only by `close()`)
  deriving DecidableEq

/-- How the attempt loop of `Connection.connect` ends. -/
inductive LoopExit
  | stillRunning   -- the gather is suspended: the attempt is live and `connect()` has not returned
  | statusChanged  -- the loop condition failed after `close()` set the status to CLOSING
  | kbdInterrupt   -- `KeyboardInterrupt` propagated out of the loop
  | fatalError     -- `raise RuntimeError("Websocket encountered an exception while running") from e` (lines 228-230)
  deriving DecidableEq

/-- The actions of one loop iteration up to and including the start of the
gather: session creation inside the 30-unit `asyncio.wait_for`, the
assignment to `self._ws`, `send_auth`, and the gather (lines 176-186).
`n` numbers the freshly created session handle. -/
def iterHead (n : Nat) : List Action :=
  [Action.waitForWs 30 true, Action.assignWs n, Action.sendAuth, Action.gatherStart]

/-- `Connection._reset_status` (openhivenpy/gateway/__init__.py lines
270-281): clears the websocket flags when `self.ws` is truthy, then assigns
the given connection status. -/
def reset_status (wsPresent : Bool) (s : ConnectionStatus) : List Action :=
  (if wsPresent then [Action.resetWsFlags] else []) ++ [Action.setStatus s]

/-- The `while self.connection_status == "OPENING"` loop of
`Connection.connect` (lines 174-233), one list entry per ending of the
awaited block; an exhausted list means the gather of the last iteration is
still suspended.  Returns the performed actions, the number of session
handles created so far, and how the loop ended.

Control flow per branch, as in the source: a timeout or a restart request
falls through to `self._reset_status("OPENING")` at line 233 and loops; a
clean remote close hits `continue` at line 210, skipping that reset; a
generic exception retries the same way when `restart` is true and otherwise
runs `self._reset_status("CLOSING")` and raises (lines 226-230);
`KeyboardInterrupt` is re-raised (lines 188-189). -/
def attemptLoop (restart : Bool) : List Outcome → Nat → List Action × Nat × LoopExit
  | [], n =>
      (iterHead n, n + 1, LoopExit.stillRunning)
  | Outcome.timeoutHit :: rest, n =>
      let r := attemptLoop restart rest n
      (Action.waitForWs 30 false ::
        (reset_status (n != 0) ConnectionStatus.OPENING ++ r.1), r.2)
  | Outcome.restartRequest :: rest, n =>
      let r := attemptLoop restart rest (n + 1)
      (iterHead n ++ reset_status true ConnectionStatus.OPENING ++ r.1, r.2)
  | Outcome.cleanRemoteClose :: rest, n =>
      let r := attemptLoop restart rest (n + 1)
      (iterHead n ++ r.1, r.2)
  | Outcome.closeCalled :: rest, n =>
      (iterHead n ++ [Action.closeSetStatus ConnectionStatus.CLOSING, Action.socketClose],
        n + 1, LoopExit.statusChanged)
  | Outcome.closeThenTimeout :: rest, n =>
      let r := attemptLoop restart rest n
      (Action.closeSetStatus ConnectionStatus.CLOSING :: Action.socketClose ::
        Action.waitForWs 30 false ::
        (reset_status (n != 0) ConnectionStatus.OPENING ++ r.1), r.2)
  | Outcome.keyboardInterrupt :: rest, n =>
      (iterHead n, n + 1, LoopExit.kbdInterrupt)
  | Outcome.genericException :: rest, n =>
      if restart then
        let r := attemptLoop restart rest (n + 1)
        (iterHead n ++ reset_status true ConnectionStatus.OPENING ++ r.1, r.2)
      else
        (iterHead n ++ reset_status true ConnectionStatus.CLOSING, n + 1,
          LoopExit.fatalError)

/-- The `finally` block of `Connection.connect` (lines 244-268).
`wsPresent`: whether `self._ws` holds a websocket, so that the
`self.keep_alive` property resolves; `brokerHasAttr`: whether
`getattr(self.message_broker, 'message_broker', None)` is truthy, i.e. the
message-broker object itself carries a truthy attribute named
`message_broker` (line 257).  `self.http` is always truthy here because it
is assigned before the loop (line 171). -/
def teardown (wsPresent brokerHasAttr : Bool) : List Action :=
  reset_status wsPresent ConnectionStatus.CLOSING
    ++ [Action.httpClose]
    ++ (if wsPresent then [Action.keepAliveStop] else [])
    ++ (if wsPresent && brokerHasAttr then [Action.brokerCloseLoop] else [])
    ++ [Action.setStatus ConnectionStatus.CLOSED, Action.waitWsFinished,
        Action.delWs, Action.setDefaults]

/-- How a call of `Connection.connect` ends for its caller. -/
inductive ConnectResult
  | pending             -- still suspended in the attempt loop (runs until `close()`)
  | returned            -- returned normally
  | sessionCreateError  -- raised `SessionCreateError` (line 243)
  deriving DecidableEq

/-- One run of `Connection.connect`: the actions performed and the way the
call ended. -/
structure ConnectRun where
  trace : List Action
  result : ConnectResult
  deriving DecidableEq

/-- `Connection.connect` (openhivenpy/gateway/__init__.py lines 164-268).
Sets the status to OPENING, opens the request transport (`httpConnectOk`
false models `self.http.connect()` raising), runs the attempt loop, and on
every way out of it runs the `finally` teardown.  A `KeyboardInterrupt`
propagating out of the loop is swallowed by `except KeyboardInterrupt: ...`
(lines 235-236) so the call returns normally; a `RuntimeError` from the
fatal branch is re-raised as `SessionCreateError` (lines 237-243). -/
def connect (restart httpConnectOk brokerHasAttr : Bool)
    (outcomes : List Outcome) : ConnectRun :=
  if httpConnectOk then
    let r := attemptLoop restart outcomes 0
    let pre := [Action.setStatus ConnectionStatus.OPENING, Action.httpConnect true]
    match r.2.2 with
    | LoopExit.stillRunning => ⟨pre ++ r.1, ConnectResult.pending⟩
    | LoopExit.statusChanged =>
        ⟨pre ++ r.1 ++ teardown (r.2.1 != 0) brokerHasAttr, ConnectResult.returned⟩
    | LoopExit.kbdInterrupt =>
        ⟨pre ++ r.1 ++ teardown (r.2.1 != 0) brokerHasAttr, ConnectResult.returned⟩
    | LoopExit.fatalError =>
        ⟨pre ++ r.1 ++ teardown (r.2.1 != 0) brokerHasAttr,
          ConnectResult.sessionCreateError⟩
  else
    ⟨[Action.setStatus ConnectionStatus.OPENING, Action.httpConnect false]
        ++ teardown false brokerHasAttr, ConnectResult.sessionCreateError⟩

/-- The value an action writes to `self._connection_status`, if any. -/
def statusWrite : Action → Option ConnectionStatus
  | Action.setStatus s => some s
  | Action.closeSetStatus s => some s
  | Action.setDefaults => some ConnectionStatus.CLOSED
  | _ => none

/-- The sequence of values written to `self._connection_status` by a trace. -/
def statusWrites (tr : List Action) : List ConnectionStatus :=
  tr.filterMap statusWrite

/-- The connection status after a run (the status is CLOSED initially, from
`__init__`). -/
def finalStatus (r : ConnectRun) : ConnectionStatus :=
  (statusWrites r.trace).foldl (fun _ s => s) ConnectionStatus.CLOSED

/-- Consecutive pairs of a list of statuses. -/
def pairs : List ConnectionStatus → List (ConnectionStatus × ConnectionStatus)
  | a :: b :: rest => (a, b) :: pairs (b :: rest)
  | _ => []

/-- The state transitions performed during one run of `connect` (the state
starts as CLOSED). -/
def runTransitions (r : ConnectRun) : List (ConnectionStatus × ConnectionStatus) :=
  pairs (ConnectionStatus.CLOSED :: statusWrites r.trace)

/-- The actions the attempt loop may perform (everything except the
teardown-only and preamble-only actions; every wait uses the 30-unit
limit). -/
def loopAction : Action → Bool
  | Action.waitForWs limit _ => limit == 30
  | Action.assignWs _ => true
  | Action.sendAuth => true
  | Action.gatherStart => true
  | Action.resetWsFlags => true
  | Action.setStatus ConnectionStatus.OPENING => true
  | Action.setStatus ConnectionStatus.CLOSING => true
  | Action.closeSetStatus ConnectionStatus.CLOSING => true
  | Action.socketClose => true
  | _ => false

/-- The loop-iteration endings after which the loop body completes without
raising, so the loop retries even when `restart` is false (timeouts and
restart requests fall through to line 233; a clean remote close hits
`continue`). -/
def retryable : Outcome → Bool
  | Outcome.timeoutHit => true
  | Outcome.restartRequest => true
  | Outcome.cleanRemoteClose => true
  | Outcome.closeThenTimeout => true
  | _ => false

/-- Whether an action is the assignment of a fresh session handle. -/
def isAssignWs : Action → Bool
  | Action.assignWs _ => true
  | _ => false

/-- The ids of the session handles assigned along a trace. -/
def assignIds (tr : List Action) : List Nat :=
  tr.filterMap fun a =>
    match a with
    | Action.assignWs i => some i
    | _ => none

/-- Reset discipline over a trace: once a session handle has been assigned,
`resetWsFlags` must occur before the next handle is assigned.  The boolean
argument is true while a reset is owed. -/
def resetDiscipline : Bool → List Action → Bool
  | _, [] => true
  | false, a :: rest => resetDiscipline (isAssignWs a) rest
  | true, a :: rest =>
      if isAssignWs a then false
      else if a = Action.resetWsFlags then resetDiscipline false rest
      else resetDiscipline true rest

/-- The status transitions the code actually performs (see
`C5_transition_discipline`).  CLOSING→OPENING happens when `close()` is
raced by a retryable loop ending: line 233 resets the status back to
OPENING. -/
def codeTransitions : List (ConnectionStatus × ConnectionStatus) :=
  [(ConnectionStatus.CLOSED, ConnectionStatus.OPENING),
    (ConnectionStatus.OPENING, ConnectionStatus.OPENING),
    (ConnectionStatus.OPENING, ConnectionStatus.CLOSING),
    (ConnectionStatus.CLOSING, ConnectionStatus.OPENING),
    (ConnectionStatus.CLOSING, ConnectionStatus.CLOSING),
    (ConnectionStatus.CLOSING, ConnectionStatus.CLOSED),
    (ConnectionStatus.CLOSED, ConnectionStatus.CLOSED)]

/-- The status transitions the specification's invariant permits: the
monotone cycle CLOSED to OPENING to OPEN to CLOSING to CLOSED, plus the
OPENING self-transition.  Written from the spec's words, for the refinement
comparison in claim C5 only. -/
def specTransitions : List (ConnectionStatus × ConnectionStatus) :=
  [(ConnectionStatus.CLOSED, ConnectionStatus.OPENING),
    (ConnectionStatus.OPENING, ConnectionStatus.OPEN),
    (ConnectionStatus.OPEN, ConnectionStatus.CLOSING),
    (ConnectionStatus.CLOSING, ConnectionStatus.CLOSED),
    (ConnectionStatus.OPENING, ConnectionStatus.OPENING)]

/-- `chainFrom a l` holds when every consecutive pair along `a :: l` is a
transition the code performs. -/
def chainFrom (a : ConnectionStatus) : List ConnectionStatus → Bool
  | [] => true
  | b :: l => if (a, b) ∈ codeTransitions then chainFrom b l else false

end Connection

namespace Connection

theorem statusWrites_nil : statusWrites [] = [] := rfl

theorem statusWrites_cons (a : Action) (l : List Action) :
    statusWrites (a :: l) = (statusWrite a).toList ++ statusWrites l := by
  cases h : statusWrite a <;> simp [statusWrites, List.filterMap_cons, h]

theorem statusWrites_append (l₁ l₂ : List Action) :
    statusWrites (l₁ ++ l₂) = statusWrites l₁ ++ statusWrites l₂ := by
  simp [statusWrites]

theorem statusWrites_iterHead (n : Nat) : statusWrites (iterHead n) = [] := rfl

theorem statusWrites_reset_status (w : Bool) (s : ConnectionStatus) :
    statusWrites (reset_status w s) = [s] := by
  cases w <;> rfl

theorem statusWrites_teardown (w b : Bool) :
    statusWrites (teardown w b)
      = [ConnectionStatus.CLOSING, ConnectionStatus.CLOSED,
          ConnectionStatus.CLOSED] := by
  cases w <;> cases b <;> rfl

/-- The status writes of the attempt loop chain from OPENING into any
continuation that chains both from OPENING and from CLOSING (the two
statuses the loop can leave behind). -/
theorem attemptLoop_chain (restart : Bool) (outcomes : List Outcome)
    (tail : List ConnectionStatus)
    (h1 : chainFrom ConnectionStatus.OPENING tail = true)
    (h2 : chainFrom ConnectionStatus.CLOSING tail = true) :
    ∀ n : Nat, chainFrom ConnectionStatus.OPENING
      (statusWrites (attemptLoop restart outcomes n).1 ++ tail) = true := by
  induction outcomes with
  | nil =>
      intro n
      simpa [attemptLoop, statusWrites_iterHead] using h1
  | cons o rest ih =>
      intro n
      cases o with
      | timeoutHit =>
          have hrec := ih n
          simp only [attemptLoop, statusWrites_cons, statusWrites_append,
            statusWrites_reset_status, statusWrite, Option.toList,
            List.nil_append, List.cons_append, List.append_assoc]
          simpa [chainFrom, codeTransitions] using hrec
      | closeThenTimeout =>
          have hrec := ih n
          simp only [attemptLoop, statusWrites_cons, statusWrites_append,
            statusWrites_reset_status, statusWrite, Option.toList,
            List.nil_append, List.cons_append, List.append_assoc]
          simpa [chainFrom, codeTransitions] using hrec
      | restartRequest =>
          have hrec := ih (n + 1)
          simp only [attemptLoop, statusWrites_append, statusWrites_iterHead,
            statusWrites_reset_status, List.nil_append, List.cons_append,
            List.append_assoc]
          simpa [chainFrom, codeTransitions] using hrec
      | cleanRemoteClose =>
          have hrec := ih (n + 1)
          simp only [attemptLoop, statusWrites_append, statusWrites_iterHead,
            List.nil_append]
          exact hrec
      | closeCalled =>
          simp only [attemptLoop, statusWrites_append, statusWrites_iterHead,
            List.nil_append]
          simpa [statusWrites, statusWrite, chainFrom, codeTransitions] using h2
      | keyboardInterrupt =>
          simpa [attemptLoop, statusWrites_iterHead] using h1
      | genericException =>
          cases restart with
          | true =>
              have hrec := ih (n + 1)
              simp only [attemptLoop, if_true, statusWrites_append,
                statusWrites_iterHead, statusWrites_reset_status,
                List.nil_append, List.cons_append, List.append_assoc]
              simpa [chainFrom, codeTransitions] using hrec
          | false =>
              simp only [attemptLoop, statusWrites_append, statusWrites_iterHead,
                statusWrites_reset_status, List.nil_append]
              simpa [chainFrom, codeTransitions] using h2

/-- While the attempt loop is still suspended (no exit yet), the last status
it wrote — if it wrote at all — is OPENING: every iteration that continues
the loop ends by restoring OPENING, even one in which `close()` wrote
CLOSING before a timeout. -/
theorem attemptLoop_pending_lastWrite (restart : Bool) (outcomes : List Outcome) :
    ∀ n : Nat, (attemptLoop restart outcomes n).2.2 = LoopExit.stillRunning →
      List.foldl (fun _ s => s) ConnectionStatus.OPENING
        (statusWrites (attemptLoop restart outcomes n).1)
        = ConnectionStatus.OPENING := by
  induction outcomes with
  | nil => intro n h; rfl
  | cons o rest ih =>
      intro n h
      cases o with
      | timeoutHit =>
          have hrec := ih n (by simpa only [attemptLoop] using h)
          simp only [attemptLoop, statusWrites_cons, statusWrites_append,
            statusWrites_reset_status, statusWrite, Option.toList,
            List.nil_append, List.cons_append, List.foldl_cons]
          simpa using hrec
      | closeThenTimeout =>
          have hrec := ih n (by simpa only [attemptLoop] using h)
          simp only [attemptLoop, statusWrites_cons, statusWrites_append,
            statusWrites_reset_status, statusWrite, Option.toList,
            List.nil_append, List.cons_append, List.foldl_cons]
          simpa using hrec
      | restartRequest =>
          have hrec := ih (n + 1) (by simpa only [attemptLoop] using h)
          simp only [attemptLoop, statusWrites_append, statusWrites_iterHead,
            statusWrites_reset_status, List.nil_append, List.cons_append,
            List.foldl_cons]
          simpa using hrec
      | cleanRemoteClose =>
          have hrec := ih (n + 1) (by simpa only [attemptLoop] using h)
          simp only [attemptLoop, statusWrites_append, statusWrites_iterHead,
            List.nil_append]
          exact hrec
      | closeCalled => simp [attemptLoop] at h
      | keyboardInterrupt => simp [attemptLoop] at h
      | genericException =>
          cases restart with
          | true =>
              have hrec := ih (n + 1) (by simpa only [attemptLoop, if_true] using h)
              simp only [attemptLoop, if_true, statusWrites_append,
                statusWrites_iterHead, statusWrites_reset_status,
                List.nil_append, List.cons_append, List.foldl_cons]
              simpa using hrec
          | false => simp [attemptLoop] at h

/-- Which loop endings produce which loop exits. -/
theorem attemptLoop_exit_characterisation (restart : Bool) (outcomes : List Outcome)
    (n : Nat) :
    ((attemptLoop restart outcomes n).2.2 = LoopExit.fatalError →
        restart = false ∧ Outcome.genericException ∈ outcomes)
    ∧ ((attemptLoop restart outcomes n).2.2 = LoopExit.statusChanged →
        Outcome.closeCalled ∈ outcomes)
    ∧ ((attemptLoop restart outcomes n).2.2 = LoopExit.kbdInterrupt →
        Outcome.keyboardInterrupt ∈ outcomes) := by
  induction outcomes generalizing n with
  | nil =>
      refine ⟨?_, ?_, ?_⟩ <;> intro h <;> simp [attemptLoop] at h
  | cons o rest ih =>
      cases o with
      | timeoutHit =>
          obtain ⟨h1, h2, h3⟩ := ih n
          refine ⟨?_, ?_, ?_⟩ <;> intro h <;>
            simp only [attemptLoop] at h
          · exact ⟨(h1 h).1, List.mem_cons_of_mem _ (h1 h).2⟩
          · exact List.mem_cons_of_mem _ (h2 h)
          · exact List.mem_cons_of_mem _ (h3 h)
      | closeThenTimeout =>
          obtain ⟨h1, h2, h3⟩ := ih n
          refine ⟨?_, ?_, ?_⟩ <;> intro h <;>
            simp only [attemptLoop] at h
          · exact ⟨(h1 h).1, List.mem_cons_of_mem _ (h1 h).2⟩
          · exact List.mem_cons_of_mem _ (h2 h)
          · exact List.mem_cons_of_mem _ (h3 h)
      | restartRequest =>
          obtain ⟨h1, h2, h3⟩ := ih (n + 1)
          refine ⟨?_, ?_, ?_⟩ <;> intro h <;>
            simp only [attemptLoop] at h
          · exact ⟨(h1 h).1, List.mem_cons_of_mem _ (h1 h).2⟩
          · exact List.mem_cons_of_mem _ (h2 h)
          · exact List.mem_cons_of_mem _ (h3 h)
      | cleanRemoteClose =>
          obtain ⟨h1, h2, h3⟩ := ih (n + 1)
          refine ⟨?_, ?_, ?_⟩ <;> intro h <;>
            simp only [attemptLoop] at h
          · exact ⟨(h1 h).1, List.mem_cons_of_mem _ (h1 h).2⟩
          · exact List.mem_cons_of_mem _ (h2 h)
          · exact List.mem_cons_of_mem _ (h3 h)
      | closeCalled =>
          refine ⟨?_, ?_, ?_⟩ <;> intro h <;> simp [attemptLoop] at h ⊢
      | keyboardInterrupt =>
          refine ⟨?_, ?_, ?_⟩ <;> intro h <;> simp [attemptLoop] at h ⊢
      | genericException =>
          cases restart with
          | true =>
              obtain ⟨h1, h2, h3⟩ := ih (n + 1)
              refine ⟨?_, ?_, ?_⟩ <;> intro h <;>
                simp only [attemptLoop, if_true] at h
              · exact ⟨(h1 h).1, List.mem_cons_of_mem _ (h1 h).2⟩
              · exact List.mem_cons_of_mem _ (h2 h)
              · exact List.mem_cons_of_mem _ (h3 h)
          | false =>
              refine ⟨?_, ?_, ?_⟩ <;> intro h <;> simp [attemptLoop] at h ⊢

/-- The attempt loop strictly increases the count of created session
handles: every exit from the loop happened in an iteration that had
created a handle. -/
theorem attemptLoop_handle_count (restart : Bool) (outcomes : List Outcome) (n : Nat) :
    n < (attemptLoop restart outcomes n).2.1 := by
  induction outcomes generalizing n with
  | nil => simp [attemptLoop]
  | cons o rest ih =>
      cases o with
      | timeoutHit =>
          simpa only [attemptLoop] using ih n
      | closeThenTimeout =>
          simpa only [attemptLoop] using ih n
      | restartRequest =>
          have := ih (n + 1)
          simp only [attemptLoop]
          omega
      | cleanRemoteClose =>
          have := ih (n + 1)
          simp only [attemptLoop]
          omega
      | closeCalled => simp [attemptLoop]
      | keyboardInterrupt => simp [attemptLoop]
      | genericException =>
          cases restart with
          | true =>
              have := ih (n + 1)
              simp only [attemptLoop, if_true]
              omega
          | false => simp [attemptLoop]

theorem mem_reset_status {a : Action} {w : Bool} {s : ConnectionStatus}
    (h : a ∈ reset_status w s) :
    a = Action.resetWsFlags ∨ a = Action.setStatus s := by
  cases w <;> simp [reset_status] at h <;> tauto

/-- Every action the attempt loop performs is a loop action; in particular
every `wait_for` uses the 30-unit limit and no teardown action occurs
inside the loop. -/
theorem attemptLoop_actions (restart : Bool) (outcomes : List Outcome) (n : Nat) :
    ∀ a ∈ (attemptLoop restart outcomes n).1, loopAction a = true := by
  induction outcomes generalizing n with
  | nil =>
      intro a ha
      simp [attemptLoop, iterHead] at ha
      rcases ha with h | h | h | h <;> subst h <;> rfl
  | cons o rest ih =>
      intro a ha
      cases o with
      | timeoutHit =>
          simp only [attemptLoop, List.mem_cons, List.mem_append] at ha
          rcases ha with h | h | h
          · subst h; rfl
          · rcases mem_reset_status h with h | h <;> subst h <;> rfl
          · exact ih n a h
      | closeThenTimeout =>
          simp only [attemptLoop, List.mem_cons, List.mem_append] at ha
          rcases ha with h | h | h | h | h
          · subst h; rfl
          · subst h; rfl
          · subst h; rfl
          · rcases mem_reset_status h with h | h <;> subst h <;> rfl
          · exact ih n a h
      | restartRequest =>
          simp only [attemptLoop, List.mem_append, iterHead, List.mem_cons] at ha
          rcases ha with ((h | h | h | h | h) | h) | h
          · subst h; rfl
          · subst h; rfl
          · subst h; rfl
          · subst h; rfl
          · simp at h
          · rcases mem_reset_status h with h | h <;> subst h <;> rfl
          · exact ih (n + 1) a h
      | cleanRemoteClose =>
          simp only [attemptLoop, List.mem_append, iterHead, List.mem_cons] at ha
          rcases ha with (h | h | h | h | h) | h
          · subst h; rfl
          · subst h; rfl
          · subst h; rfl
          · subst h; rfl
          · simp at h
          · exact ih (n + 1) a h
      | closeCalled =>
          simp only [attemptLoop, List.mem_append, iterHead, List.mem_cons] at ha
          rcases ha with (h | h | h | h | h) | h | h | h
          · subst h; rfl
          · subst h; rfl
          · subst h; rfl
          · subst h; rfl
          · simp at h
          · subst h; rfl
          · subst h; rfl
          · simp at h
      | keyboardInterrupt =>
          simp [attemptLoop, iterHead] at ha
          rcases ha with h | h | h | h <;> subst h <;> rfl
      | genericException =>
          cases restart with
          | true =>
              simp only [attemptLoop, if_true, List.mem_append, iterHead,
                List.mem_cons] at ha
              rcases ha with ((h | h | h | h | h) | h) | h
              · subst h; rfl
              · subst h; rfl
              · subst h; rfl
              · subst h; rfl
              · simp at h
              · rcases mem_reset_status h with h | h <;> subst h <;> rfl
              · exact ih (n + 1) a h
          | false =>
              simp only [attemptLoop, if_neg (by simp : ¬False), Bool.false_eq_true,
                if_false, List.mem_append, iterHead, List.mem_cons] at ha
              rcases ha with (h | h | h | h | h) | h
              · subst h; rfl
              · subst h; rfl
              · subst h; rfl
              · subst h; rfl
              · simp at h
              · rcases mem_reset_status h with h | h <;> subst h <;> rfl

/-- How the loop exit determines what `connect` does for its caller. -/
theorem connect_result (restart broker : Bool) (outcomes : List Outcome) :
    (connect restart true broker outcomes).result
      = match (attemptLoop restart outcomes 0).2.2 with
        | LoopExit.stillRunning => ConnectResult.pending
        | LoopExit.statusChanged => ConnectResult.returned
        | LoopExit.kbdInterrupt => ConnectResult.returned
        | LoopExit.fatalError => ConnectResult.sessionCreateError := by
  unfold connect
  cases hex : (attemptLoop restart outcomes 0).2.2 <;> simp [hex]

/-- By the time the loop exits, at least one session handle exists. -/
theorem attemptLoop_wsPresent (restart : Bool) (outcomes : List Outcome) :
    ((attemptLoop restart outcomes 0).2.1 != 0) = true := by
  have := attemptLoop_handle_count restart outcomes 0
  simp only [bne_iff_ne, ne_eq]
  omega

/-- A completed run of `connect` is the OPENING preamble, the attempt-loop
actions, then the `finally` teardown with a websocket present. -/
theorem connect_completed_shape (restart broker : Bool) (outcomes : List Outcome)
    (h : (connect restart true broker outcomes).result ≠ ConnectResult.pending) :
    (connect restart true broker outcomes).trace
      = [Action.setStatus ConnectionStatus.OPENING, Action.httpConnect true]
          ++ (attemptLoop restart outcomes 0).1
          ++ teardown true broker := by
  have hw := attemptLoop_wsPresent restart outcomes
  have hr := connect_result restart broker outcomes
  unfold connect
  cases hex : (attemptLoop restart outcomes 0).2.2 <;>
    simp only [hex] at hr <;> simp [hex, hw] at h ⊢
  · exact absurd (by rw [hr]) h
  all_goals simp [connect, hex, hw]

/-- The last status write of any trace ending in the teardown is CLOSED. -/
theorem finalStatus_teardown (l : List Action) (w b : Bool) (res : ConnectResult) :
    finalStatus ⟨l ++ teardown w b, res⟩ = ConnectionStatus.CLOSED := by
  simp [finalStatus, statusWrites_append, statusWrites_teardown, List.foldl_append]

/-- A completed run of `connect` ends with the connection status CLOSED. -/
theorem finalStatus_completed (restart broker : Bool) (outcomes : List Outcome)
    (h : (connect restart true broker outcomes).result ≠ ConnectResult.pending) :
    finalStatus (connect restart true broker outcomes) = ConnectionStatus.CLOSED := by
  have hs := connect_completed_shape restart broker outcomes h
  have : finalStatus (connect restart true broker outcomes)
      = finalStatus ⟨(connect restart true broker outcomes).trace,
          (connect restart true broker outcomes).result⟩ := rfl
  rw [this, hs]
  exact finalStatus_teardown
    ([Action.setStatus ConnectionStatus.OPENING, Action.httpConnect true]
      ++ (attemptLoop restart outcomes 0).1) true broker _

theorem chainFrom_allowed {a : ConnectionStatus} {l : List ConnectionStatus}
    (h : chainFrom a l = true) :
    ∀ p ∈ pairs (a :: l), p ∈ codeTransitions := by
  induction l generalizing a with
  | nil => intro p hp; simp [pairs] at hp
  | cons b l ih =>
      intro p hp
      simp only [chainFrom] at h
      by_cases hab : (a, b) ∈ codeTransitions
      · rw [if_pos hab] at h
        simp only [pairs, List.mem_cons] at hp
        rcases hp with hp | hp
        · subst hp; exact hab
        · exact ih h p hp
      · rw [if_neg hab] at h
        exact absurd h (by simp)

/-- A run of `connect` whose attempt loop is still suspended is the OPENING
preamble followed by the loop actions so far. -/
theorem connect_pending_shape (restart broker : Bool) (outcomes : List Outcome)
    (h : (attemptLoop restart outcomes 0).2.2 = LoopExit.stillRunning) :
    (connect restart true broker outcomes).trace
      = [Action.setStatus ConnectionStatus.OPENING, Action.httpConnect true]
          ++ (attemptLoop restart outcomes 0).1 := by
  unfold connect
  simp [h]

/-- All status writes of a full `connect` run form a chain of code
transitions starting from CLOSED. -/
theorem connect_chain (restart httpOk broker : Bool) (outcomes : List Outcome) :
    chainFrom ConnectionStatus.CLOSED
      (statusWrites (connect restart httpOk broker outcomes).trace) = true := by
  cases httpOk with
  | false =>
      simp [connect, statusWrites_cons, statusWrites_append, statusWrites_teardown,
        statusWrite, chainFrom, codeTransitions]
  | true =>
      cases hex : (attemptLoop restart outcomes 0).2.2
      case stillRunning =>
          rw [connect_pending_shape restart broker outcomes hex,
            statusWrites_append]
          have hloop := attemptLoop_chain restart outcomes [] rfl rfl 0
          simp only [List.append_nil] at hloop
          have hpre : statusWrites
              [Action.setStatus ConnectionStatus.OPENING, Action.httpConnect true]
              = [ConnectionStatus.OPENING] := rfl
          rw [hpre]
          simpa [chainFrom, codeTransitions] using hloop
      all_goals
        have hres : (connect restart true broker outcomes).result
            ≠ ConnectResult.pending := by
          rw [connect_result, hex]
          simp
      all_goals
        rw [connect_completed_shape restart broker outcomes hres,
          List.append_assoc, statusWrites_append, statusWrites_append,
          statusWrites_teardown]
      all_goals
        have hloop := attemptLoop_chain restart outcomes
          [ConnectionStatus.CLOSING, ConnectionStatus.CLOSED,
            ConnectionStatus.CLOSED] (by decide) (by decide) 0
      all_goals
        have hpre : statusWrites
            [Action.setStatus ConnectionStatus.OPENING, Action.httpConnect true]
            = [ConnectionStatus.OPENING] := rfl
      all_goals rw [hpre]
      all_goals simpa [chainFrom, codeTransitions] using hloop

/-- The attempt loop with `restart` false whose endings are retryable up to
a generic exception: the loop exits fatally and its last actions are
`_reset_status("CLOSING")`. -/
theorem attemptLoop_fatal_suffix (pre post : List Outcome) (n : Nat)
    (h : ∀ o ∈ pre, retryable o = true) :
    (attemptLoop false (pre ++ Outcome.genericException :: post) n).2.2
        = LoopExit.fatalError
    ∧ reset_status true ConnectionStatus.CLOSING
        <:+ (attemptLoop false (pre ++ Outcome.genericException :: post) n).1 := by
  induction pre generalizing n with
  | nil =>
      refine ⟨rfl, ?_⟩
      simpa [attemptLoop] using List.suffix_append (iterHead n) _
  | cons o pre ih =>
      have ho := h o (by simp)
      have h' : ∀ x ∈ pre, retryable x = true := fun x hx => h x (by simp [hx])
      cases o with
      | timeoutHit =>
          obtain ⟨h1, h2⟩ := ih n h'
          refine ⟨by simpa only [attemptLoop, List.cons_append] using h1, ?_⟩
          simp only [attemptLoop, List.cons_append]
          exact h2.trans ((List.suffix_append _ _).trans (List.suffix_cons _ _))
      | closeThenTimeout =>
          obtain ⟨h1, h2⟩ := ih n h'
          refine ⟨by simpa only [attemptLoop, List.cons_append] using h1, ?_⟩
          simp only [attemptLoop, List.cons_append]
          exact h2.trans (((List.suffix_append _ _).trans
            (List.suffix_cons _ _)).trans
              ((List.suffix_cons _ _).trans (List.suffix_cons _ _)))
      | restartRequest =>
          obtain ⟨h1, h2⟩ := ih (n + 1) h'
          refine ⟨by simpa only [attemptLoop, List.cons_append] using h1, ?_⟩
          simp only [attemptLoop, List.cons_append]
          exact h2.trans (List.suffix_append _ _)
      | cleanRemoteClose =>
          obtain ⟨h1, h2⟩ := ih (n + 1) h'
          refine ⟨by simpa only [attemptLoop, List.cons_append] using h1, ?_⟩
          simp only [attemptLoop, List.cons_append]
          exact h2.trans (List.suffix_append _ _)
      | closeCalled => simp [retryable] at ho
      | keyboardInterrupt => simp [retryable] at ho
      | genericException => simp [retryable] at ho

/-- The session-handle ids assigned by the attempt loop are consecutive:
every iteration discards the previous handle and binds a fresh one. -/
theorem attemptLoop_assignIds (restart : Bool) (outcomes : List Outcome) (n : Nat) :
    assignIds (attemptLoop restart outcomes n).1
      = List.range' n ((attemptLoop restart outcomes n).2.1 - n) := by
  induction outcomes generalizing n with
  | nil =>
      simp [attemptLoop, assignIds, iterHead, List.range']
  | cons o rest ih =>
      cases o with
      | timeoutHit =>
          have hrec := ih n
          simp only [attemptLoop]
          cases hn : (n != 0) <;>
            simpa [assignIds, reset_status, List.filterMap_append] using hrec
      | closeThenTimeout =>
          have hrec := ih n
          simp only [attemptLoop]
          cases hn : (n != 0) <;>
            simpa [assignIds, reset_status, List.filterMap_append] using hrec
      | restartRequest =>
          have hrec := ih (n + 1)
          have hcount := attemptLoop_handle_count restart rest (n + 1)
          simp only [attemptLoop]
          have harith : (attemptLoop restart rest (n + 1)).2.1 - n
              = ((attemptLoop restart rest (n + 1)).2.1 - (n + 1)) + 1 := by omega
          rw [harith, List.range'_succ]
          simpa [assignIds, iterHead, reset_status, List.filterMap_append]
            using hrec
      | cleanRemoteClose =>
          have hrec := ih (n + 1)
          have hcount := attemptLoop_handle_count restart rest (n + 1)
          simp only [attemptLoop]
          have harith : (attemptLoop restart rest (n + 1)).2.1 - n
              = ((attemptLoop restart rest (n + 1)).2.1 - (n + 1)) + 1 := by omega
          rw [harith, List.range'_succ]
          simpa [assignIds, iterHead, List.filterMap_append] using hrec
      | closeCalled =>
          simp [attemptLoop, assignIds, iterHead, List.filterMap_append, List.range']
      | keyboardInterrupt =>
          simp [attemptLoop, assignIds, iterHead, List.range']
      | genericException =>
          cases restart with
          | true =>
              have hrec := ih (n + 1)
              have hcount := attemptLoop_handle_count true rest (n + 1)
              simp only [attemptLoop, if_true]
              have harith : (attemptLoop true rest (n + 1)).2.1 - n
                  = ((attemptLoop true rest (n + 1)).2.1 - (n + 1)) + 1 := by omega
              rw [harith, List.range'_succ]
              simpa [assignIds, iterHead, reset_status, List.filterMap_append]
                using hrec
          | false =>
              simp [attemptLoop, assignIds, iterHead, reset_status,
                List.filterMap_append, List.range']

/-- When no iteration ends in a clean remote close, the websocket flags are
cleared between any two session-handle assignments. -/
theorem attemptLoop_resetDiscipline (restart : Bool) (outcomes : List Outcome) :
    ∀ n : Nat, Outcome.cleanRemoteClose ∉ outcomes →
      resetDiscipline false (attemptLoop restart outcomes n).1 = true := by
  induction outcomes with
  | nil =>
      intro n h
      simp [attemptLoop, iterHead, resetDiscipline, isAssignWs]
  | cons o rest ih =>
      intro n h
      have h' : Outcome.cleanRemoteClose ∉ rest :=
        fun hc => h (List.mem_cons_of_mem _ hc)
      have ho : o ≠ Outcome.cleanRemoteClose :=
        fun he => h (he ▸ List.mem_cons_self _ _)
      cases o with
      | cleanRemoteClose => exact absurd rfl ho
      | timeoutHit =>
          have hrec := ih n h'
          simp only [attemptLoop]
          cases hn : (n != 0) <;>
            simpa [reset_status, resetDiscipline, isAssignWs] using hrec
      | closeThenTimeout =>
          have hrec := ih n h'
          simp only [attemptLoop]
          cases hn : (n != 0) <;>
            simpa [reset_status, resetDiscipline, isAssignWs] using hrec
      | restartRequest =>
          have hrec := ih (n + 1) h'
          simp only [attemptLoop]
          simpa [iterHead, reset_status, resetDiscipline, isAssignWs] using hrec
      | closeCalled =>
          simp [attemptLoop, iterHead, resetDiscipline, isAssignWs]
      | keyboardInterrupt =>
          simp [attemptLoop, iterHead, resetDiscipline, isAssignWs]
      | genericException =>
          cases restart with
          | true =>
              have hrec := ih (n + 1) h'
              simp only [attemptLoop, if_true]
              simpa [iterHead, reset_status, resetDiscipline, isAssignWs] using hrec
          | false =>
              simp [attemptLoop, iterHead, reset_status, resetDiscipline, isAssignWs]

/-- C2: with `allow_restart` false, a loop ending that is neither a setup
timeout, nor a clean remote close, nor a restart request makes the loop run
`_reset_status("CLOSING")` as its final actions, makes `connect()` raise
`SessionCreateError` wrapping the cause, and leaves the status CLOSED after
the call; with `allow_restart` true the same ending is logged and the loop
retries with the remaining endings, and `connect()` never raises from loop
exceptions. -/
theorem C2_fatal_exception_classification :
    (∀ (broker : Bool) (pre post : List Outcome),
        (∀ o ∈ pre, retryable o = true) →
        (connect false true broker (pre ++ Outcome.genericException :: post)).result
            = ConnectResult.sessionCreateError
        ∧ reset_status true ConnectionStatus.CLOSING
            <:+ (attemptLoop false (pre ++ Outcome.genericException :: post) 0).1
        ∧ finalStatus (connect false true broker
              (pre ++ Outcome.genericException :: post)) = ConnectionStatus.CLOSED)
    ∧ (∀ (broker : Bool) (outcomes : List Outcome),
        (connect true true broker outcomes).result ≠ ConnectResult.sessionCreateError)
    ∧ (∀ (rest : List Outcome) (n : Nat),
        attemptLoop true (Outcome.genericException :: rest) n
          = (iterHead n ++ reset_status true ConnectionStatus.OPENING
              ++ (attemptLoop true rest (n + 1)).1,
             (attemptLoop true rest (n + 1)).2)) := by
  refine ⟨?_, ?_, ?_⟩
  · intro broker pre post h
    obtain ⟨hex, hsuffix⟩ := attemptLoop_fatal_suffix pre post 0 h
    have hres : (connect false true broker
        (pre ++ Outcome.genericException :: post)).result
        = ConnectResult.sessionCreateError := by
      rw [connect_result, hex]
    exact ⟨hres, hsuffix,
      finalStatus_completed false broker _ (by rw [hres]; simp)⟩
  · intro broker outcomes
    rw [connect_result]
    cases hex : (attemptLoop true outcomes 0).2.2
    · simp
    · simp
    · simp
    · have hchar := ((attemptLoop_exit_characterisation true outcomes 0).1 hex).1
      exact absurd hchar (by simp)
  · intro rest n
    rfl

/-- Witness for C2 at concrete inputs: a timeout followed by a generic
exception with `restart` false raises `SessionCreateError` and ends CLOSED,
while the same exception with `restart` true does not raise. -/
theorem C2_fatal_exception_classification_witness :
    (connect false true true
        ([Outcome.timeoutHit] ++ Outcome.genericException :: [])).result
        = ConnectResult.sessionCreateError
    ∧ finalStatus (connect false true true
        ([Outcome.timeoutHit] ++ Outcome.genericException :: []))
        = ConnectionStatus.CLOSED
    ∧ (connect true true true [Outcome.genericException]).result
        ≠ ConnectResult.sessionCreateError :=
  ⟨(C2_fatal_exception_classification.1 true [Outcome.timeoutHit] [] (by decide)).1,
    (C2_fatal_exception_classification.1 true [Outcome.timeoutHit] [] (by decide)).2.2,
    C2_fatal_exception_classification.2.1 true [Outcome.genericException]⟩

/-- C3 counterexample: a run in which session setup, handshake and
authentication all succeed and the session stays live (the gather is
suspended) never assigns the OPEN status; the status stays OPENING. -/
theorem C3_counterexample_live_run_stays_OPENING :
    (connect true true true [Outcome.cleanRemoteClose]).result
        = ConnectResult.pending
    ∧ ConnectionStatus.OPEN ∉
        statusWrites (connect true true true [Outcome.cleanRemoteClose]).trace
    ∧ finalStatus (connect true true true [Outcome.cleanRemoteClose])
        = ConnectionStatus.OPENING := by
  decide

theorem chainFrom_no_OPEN {a : ConnectionStatus} {l : List ConnectionStatus}
    (h : chainFrom a l = true) : ConnectionStatus.OPEN ∉ l := by
  induction l generalizing a with
  | nil => simp
  | cons b l ih =>
      simp only [chainFrom] at h
      by_cases hab : (a, b) ∈ codeTransitions
      · rw [if_pos hab] at h
        intro hmem
        rcases List.mem_cons.1 hmem with hb | hb
        · subst hb
          revert hab
          cases a <;> decide
        · exact ih h hb
      · rw [if_neg hab] at h
        exact absurd h (by simp)

/-- C3 (amended): `connect()` sets the status to OPENING, and while the
stream session runs the status remains OPENING; no execution of the
supervisor ever assigns OPEN. -/
theorem C3_no_OPEN_assignment (restart httpOk broker : Bool)
    (outcomes : List Outcome) :
    ConnectionStatus.OPEN ∉
        statusWrites (connect restart httpOk broker outcomes).trace
    ∧ ((connect restart httpOk broker outcomes).result = ConnectResult.pending →
        finalStatus (connect restart httpOk broker outcomes)
          = ConnectionStatus.OPENING) := by
  refine ⟨chainFrom_no_OPEN (connect_chain restart httpOk broker outcomes), ?_⟩
  intro h
  cases httpOk with
  | false => simp [connect] at h
  | true =>
      have hex : (attemptLoop restart outcomes 0).2.2 = LoopExit.stillRunning := by
        rw [connect_result] at h
        cases hex : (attemptLoop restart outcomes 0).2.2
        · rfl
        · rw [hex] at h
          simp at h
        · rw [hex] at h
          simp at h
        · rw [hex] at h
          simp at h
      unfold finalStatus
      rw [connect_pending_shape restart broker outcomes hex, statusWrites_append]
      have hpre : statusWrites
          [Action.setStatus ConnectionStatus.OPENING, Action.httpConnect true]
          = [ConnectionStatus.OPENING] := rfl
      rw [hpre]
      simp only [List.cons_append, List.nil_append, List.foldl_cons]
      exact attemptLoop_pending_lastWrite restart outcomes 0 hex

/-- Witness for C3 (amended) at a concrete input: a live run with no loop
ending yet. -/
theorem C3_no_OPEN_assignment_witness :
    ConnectionStatus.OPEN ∉ statusWrites (connect true true true []).trace
    ∧ finalStatus (connect true true true []) = ConnectionStatus.OPENING :=
  ⟨(C3_no_OPEN_assignment true true true []).1,
    (C3_no_OPEN_assignment true true true []).2 (by decide)⟩

/-- C4 counterexample: in the concrete fatal run the teardown closes the
Request Transport before stopping the Heartbeat Monitor, and never closes
the Stream Session's transport at all, contradicting the claimed order
(stream close, heartbeat stop, dispatch stop, request-transport close,
CLOSED last). -/
theorem C4_counterexample_teardown_order :
    ((connect false true true [Outcome.genericException]).trace.indexOf
          Action.httpClose
        < (connect false true true [Outcome.genericException]).trace.indexOf
          Action.keepAliveStop)
    ∧ Action.socketClose ∉
        (connect false true true [Outcome.genericException]).trace := by
  decide

/-- C4 (amended): on loop exit the teardown performs, in order: clear the
websocket flags and set CLOSING, close the Request Transport, stop the
Heartbeat Monitor and wait for it to report inactive, stop the Dispatch
Queue only when the broker object carries a truthy `message_broker`
attribute, set the status CLOSED, wait for the websocket to finish, discard
the handle, and reset the defaults (which assigns CLOSED again); the Stream
Session transport is closed by `close()`, not by the teardown, and the
final status is CLOSED. -/
theorem C4_teardown_sequence (restart broker : Bool) (outcomes : List Outcome)
    (h : (connect restart true broker outcomes).result ≠ ConnectResult.pending) :
    teardown true broker <:+ (connect restart true broker outcomes).trace
    ∧ (teardown true broker).indexOf Action.httpClose
        < (teardown true broker).indexOf Action.keepAliveStop
    ∧ (teardown true broker).indexOf Action.keepAliveStop
        < (teardown true broker).indexOf (Action.setStatus ConnectionStatus.CLOSED)
    ∧ Action.socketClose ∉ teardown true broker
    ∧ (teardown true broker).getLast? = some Action.setDefaults
    ∧ finalStatus (connect restart true broker outcomes)
        = ConnectionStatus.CLOSED := by
  refine ⟨?_, ?_, ?_, ?_, ?_, finalStatus_completed restart broker outcomes h⟩
  · rw [connect_completed_shape restart broker outcomes h]
    exact List.suffix_append _ _
  · cases broker <;> decide
  · cases broker <;> decide
  · cases broker <;> decide
  · cases broker <;> decide

/-- Witness for C4 (amended) at a concrete fatal run. -/
theorem C4_teardown_sequence_witness :
    teardown true true <:+ (connect false true true [Outcome.genericException]).trace
    ∧ (teardown true true).indexOf Action.httpClose
        < (teardown true true).indexOf Action.keepAliveStop
    ∧ (teardown true true).indexOf Action.keepAliveStop
        < (teardown true true).indexOf (Action.setStatus ConnectionStatus.CLOSED)
    ∧ Action.socketClose ∉ teardown true true
    ∧ (teardown true true).getLast? = some Action.setDefaults
    ∧ finalStatus (connect false true true [Outcome.genericException])
        = ConnectionStatus.CLOSED :=
  C4_teardown_sequence false true [Outcome.genericException] (by decide)

/-- C5 counterexample: the concrete fatal run performs the transition
OPENING to CLOSING (skipping OPEN), which the spec's permitted transition
list does not contain. -/
theorem C5_counterexample_opening_to_closing :
    (ConnectionStatus.OPENING, ConnectionStatus.CLOSING) ∈
        runTransitions (connect false true true [Outcome.genericException])
    ∧ (ConnectionStatus.OPENING, ConnectionStatus.CLOSING) ∉ specTransitions := by
  decide

/-- C5 (amended): exactly one status holds at any instant (the status is one
field of the supervisor) and every transition performed during any run of
`connect` — including runs in which `close()` intervenes — is one of
CLOSED→OPENING, OPENING→OPENING, OPENING→CLOSING, CLOSING→OPENING,
CLOSING→CLOSING, CLOSING→CLOSED, CLOSED→CLOSED; the OPEN state is never
entered.  CLOSING→OPENING is reachable: when `close()` is raced by a
retryable loop ending, line 233 resets the status from CLOSING back to
OPENING. -/
theorem C5_transition_discipline :
    (∀ (restart httpOk broker : Bool) (outcomes : List Outcome),
        ∀ p ∈ runTransitions (connect restart httpOk broker outcomes),
          p ∈ codeTransitions)
    ∧ (ConnectionStatus.CLOSING, ConnectionStatus.OPENING) ∈
        runTransitions (connect true true true [Outcome.closeThenTimeout]) := by
  constructor
  · intro restart httpOk broker outcomes p hp
    exact chainFrom_allowed (connect_chain restart httpOk broker outcomes) p hp
  · decide

/-- Witness for C5 (amended) at a concrete run and transition. -/
theorem C5_transition_discipline_witness :
    (ConnectionStatus.CLOSED, ConnectionStatus.OPENING) ∈ codeTransitions :=
  C5_transition_discipline.1 false true true [Outcome.genericException]
    (ConnectionStatus.CLOSED, ConnectionStatus.OPENING) (by decide)

/-- C6: every session-creation wait of the attempt loop is bounded by the
30-unit limit; an elapsed setup timeout — including one racing a concurrent
`close()` — falls through to the `_reset_status("OPENING")` retry at line
233 and the run continues exactly as it would without that iteration, so a
timeout never changes how `connect()` terminates, for both values of the
restart flag; and `connect()` terminates fatally only for a generic
exception with `restart` false — never because of a timeout. -/
theorem C6_timeout_retryable :
    (∀ (restart : Bool) (outcomes : List Outcome) (n limit : Nat) (ok : Bool),
        Action.waitForWs limit ok ∈ (attemptLoop restart outcomes n).1 →
          limit = 30)
    ∧ (∀ (restart broker : Bool) (rest : List Outcome),
        (connect restart true broker (Outcome.timeoutHit :: rest)).result
            = (connect restart true broker rest).result
        ∧ (connect restart true broker (Outcome.closeThenTimeout :: rest)).result
            = (connect restart true broker rest).result)
    ∧ (∀ (restart : Bool) (rest : List Outcome) (n : Nat),
        attemptLoop restart (Outcome.timeoutHit :: rest) n
          = (Action.waitForWs 30 false ::
              (reset_status (n != 0) ConnectionStatus.OPENING
                ++ (attemptLoop restart rest n).1),
             (attemptLoop restart rest n).2)
        ∧ attemptLoop restart (Outcome.closeThenTimeout :: rest) n
          = (Action.closeSetStatus ConnectionStatus.CLOSING ::
              Action.socketClose :: Action.waitForWs 30 false ::
              (reset_status (n != 0) ConnectionStatus.OPENING
                ++ (attemptLoop restart rest n).1),
             (attemptLoop restart rest n).2))
    ∧ (∀ (restart broker : Bool) (outcomes : List Outcome),
        (connect restart true broker outcomes).result
            = ConnectResult.sessionCreateError →
          restart = false ∧ Outcome.genericException ∈ outcomes) := by
  refine ⟨?_, ?_, ?_, ?_⟩
  · intro restart outcomes n limit ok hmem
    have hact := attemptLoop_actions restart outcomes n _ hmem
    simpa [loopAction] using hact
  · intro restart broker rest
    have h1 : (attemptLoop restart (Outcome.timeoutHit :: rest) 0).2.2
        = (attemptLoop restart rest 0).2.2 := by
      simp only [attemptLoop]
    have h2 : (attemptLoop restart (Outcome.closeThenTimeout :: rest) 0).2.2
        = (attemptLoop restart rest 0).2.2 := by
      simp only [attemptLoop]
    constructor
    · rw [connect_result, connect_result, h1]
    · rw [connect_result, connect_result, h2]
  · intro restart rest n
    constructor
    · simp only [attemptLoop]
    · simp only [attemptLoop]
  · intro restart broker outcomes h
    rw [connect_result] at h
    cases hex : (attemptLoop restart outcomes 0).2.2
    · rw [hex] at h
      simp at h
    · rw [hex] at h
      simp at h
    · rw [hex] at h
      simp at h
    · exact (attemptLoop_exit_characterisation restart outcomes 0).1 hex

/-- Witness for C6 at concrete inputs. -/
theorem C6_timeout_retryable_witness :
    30 = 30
    ∧ (connect true true true [Outcome.timeoutHit]).result
        = (connect true true true ([] : List Outcome)).result
    ∧ (false = false ∧ Outcome.genericException ∈ [Outcome.genericException]) :=
  ⟨C6_timeout_retryable.1 true [] 0 30 true (by decide),
    (C6_timeout_retryable.2.1 true true []).1,
    C6_timeout_retryable.2.2.2 false true [Outcome.genericException] (by decide)⟩

/-- C7 counterexample: an iteration ended by a clean remote close reaches
the next session creation without the websocket flags ever being cleared
(the run creates two session handles and contains no flag reset at all). -/
theorem C7_counterexample_clean_close_skips_reset :
    Action.resetWsFlags ∉
        (connect true true true [Outcome.cleanRemoteClose]).trace
    ∧ (connect true true true [Outcome.cleanRemoteClose]).trace.countP
        isAssignWs = 2 := by
  decide

/-- C7 (amended): each loop iteration discards the previous Session Handle
and binds a fresh one (the handle ids are consecutive), and when no
iteration ends in a clean remote close the websocket flags are cleared
between any two handle assignments; an iteration ended by a clean remote
close hits `continue` and skips the reset. -/
theorem C7_reset_between_attempts (restart : Bool) (outcomes : List Outcome)
    (n : Nat) (h : Outcome.cleanRemoteClose ∉ outcomes) :
    resetDiscipline false (attemptLoop restart outcomes n).1 = true
    ∧ assignIds (attemptLoop restart outcomes n).1
        = List.range' n ((attemptLoop restart outcomes n).2.1 - n) :=
  ⟨attemptLoop_resetDiscipline restart outcomes n h,
    attemptLoop_assignIds restart outcomes n⟩

/-- Witness for C7 (amended) at a concrete input. -/
theorem C7_reset_between_attempts_witness :
    resetDiscipline false (attemptLoop true [Outcome.restartRequest] 0).1 = true
    ∧ assignIds (attemptLoop true [Outcome.restartRequest] 0).1
        = List.range' 0 ((attemptLoop true [Outcome.restartRequest] 0).2.1 - 0) :=
  C7_reset_between_attempts true [Outcome.restartRequest] 0 (by decide)

/-- C8 counterexample: a `KeyboardInterrupt` during the attempt makes
`connect()` return normally although `close()` was never called and nothing
was raised — the interrupt is swallowed by `except KeyboardInterrupt`
(gateway lines 235-236, hivenclient lines 226-227). -/
theorem C8_counterexample_kbd_silent_return :
    (connect false true true [Outcome.keyboardInterrupt]).result
        = ConnectResult.returned
    ∧ Outcome.closeCalled ∉ [Outcome.keyboardInterrupt] := by
  decide

/-- C8 (amended): `connect()` keeps running until `close()` or raises
`SessionCreateError`, except that a swallowed `KeyboardInterrupt` also makes
it return normally: a normal return implies `close()` ran or a
`KeyboardInterrupt` occurred. -/
theorem C8_return_requires_close_or_interrupt (restart httpOk broker : Bool)
    (outcomes : List Outcome)
    (h : (connect restart httpOk broker outcomes).result = ConnectResult.returned) :
    Outcome.closeCalled ∈ outcomes ∨ Outcome.keyboardInterrupt ∈ outcomes := by
  cases httpOk with
  | false => simp [connect] at h
  | true =>
      rw [connect_result] at h
      cases hex : (attemptLoop restart outcomes 0).2.2
      · rw [hex] at h
        simp at h
      · exact Or.inl ((attemptLoop_exit_characterisation restart outcomes 0).2.1 hex)
      · exact Or.inr ((attemptLoop_exit_characterisation restart outcomes 0).2.2 hex)
      · rw [hex] at h
        simp at h

/-- Witness for C8 (amended) at a concrete input. -/
theorem C8_return_requires_close_or_interrupt_witness :
    Outcome.closeCalled ∈ [Outcome.closeCalled]
      ∨ Outcome.keyboardInterrupt ∈ [Outcome.closeCalled] :=
  C8_return_requires_close_or_interrupt false true true [Outcome.closeCalled]
    (by decide)

/-- C10: in the teardown, the Dispatch Queue stop
(`message_broker.close_loop`) runs exactly when
`getattr(self.message_broker, 'message_broker', None)` is truthy, i.e. when
the broker object itself carries a truthy attribute named `message_broker`;
without such an attribute the teardown skips the Dispatch Queue stop while
still stopping the keep-alive, closing the Request Transport, and ending
with the status CLOSED. -/
theorem C10_broker_attribute_guard (restart broker : Bool)
    (outcomes : List Outcome)
    (h : (connect restart true broker outcomes).result ≠ ConnectResult.pending) :
    (Action.brokerCloseLoop ∈ (connect restart true broker outcomes).trace
        ↔ broker = true)
    ∧ (broker = false →
        Action.keepAliveStop ∈ (connect restart true broker outcomes).trace
        ∧ Action.httpClose ∈ (connect restart true broker outcomes).trace
        ∧ finalStatus (connect restart true broker outcomes)
            = ConnectionStatus.CLOSED) := by
  have hshape := connect_completed_shape restart broker outcomes h
  refine ⟨?_, ?_⟩
  · rw [hshape]
    constructor
    · intro hmem
      rcases List.mem_append.1 hmem with hmem | hmem
      · rcases List.mem_append.1 hmem with hmem | hmem
        · simp at hmem
        · have hla := attemptLoop_actions restart outcomes 0 _ hmem
          simp [loopAction] at hla
      · cases broker
        · exact absurd hmem (by decide)
        · rfl
    · intro hb
      subst hb
      exact List.mem_append.2 (Or.inr (by decide))
  · intro hb
    subst hb
    refine ⟨?_, ?_, finalStatus_completed restart false outcomes h⟩
    · rw [hshape]
      exact List.mem_append.2 (Or.inr (by decide))
    · rw [hshape]
      exact List.mem_append.2 (Or.inr (by decide))

/-- Witness for C10 at a concrete input without the broker attribute. -/
theorem C10_broker_attribute_guard_witness :
    Action.keepAliveStop ∈ (connect false true false [Outcome.genericException]).trace
    ∧ Action.httpClose ∈ (connect false true false [Outcome.genericException]).trace
    ∧ finalStatus (connect false true false [Outcome.genericException])
        = ConnectionStatus.CLOSED :=
  (C10_broker_attribute_guard false false [Outcome.genericException] (by decide)).2 rfl

end Connection

end OpenHivenPy
